import Mathlib

/-!
Verification of the korp-mono converter against its specification.

The definitions below are a shallow embedding of the Rust sources:

* `parse_year`, `zero_output`, `dotted_case` embed `src/parse_year.rs`;
* `process_sentence` and its helpers embed the flattener `process_sentence`
  defined in `src/main.rs` (the function actually referenced as
  `crate::process_sentence` by `src/korp_mono/file.rs`);
* `korp_sentences` embeds the sentence-list construction of
  `From<ParsedAnalysedDocument> for KorpMonoXmlFile` in `src/korp_mono/file.rs`;
* `author_fields` embeds the author handling of the same `From` impl;
* `korp_mono_path` embeds the component substitution of
  `From<&AnalysedFilePath> for KorpMonoPath` in `src/korp_mono/path.rs`
  (paths are modelled as their lists of components);
* `is_corpus_dir` / `is_analysed_corpus_dir` embed `src/analysed/path.rs`,
  with `Option Bool` making the possible index-out-of-bounds panic explicit
  (`none` models a panic).
-/

namespace KorpMono

/-! ## Year normalisation (`src/parse_year.rs`) -/

/-- The sentinel triple produced by the `zero_output!` macro. -/
def zero_output : String × String × String :=
  ("0000-00-00", "00000000", "00000000")

/-- `is_digit` from `parse_year.rs`: the byte is in `'0'..='9'`. -/
def is_digit (c : Char) : Bool :=
  '0' ≤ c && c ≤ '9'

/-- Numeric value of the two-digit slice, as produced by `dd.parse::<u8>()`
on a two-digit string. -/
def two_digit_val (a b : Char) : Nat :=
  10 * (a.toNat - '0'.toNat) + (b.toNat - '0'.toNat)

/-- The `match (ddu, mmu)` of the dotted branch of `parse_year`:
arms `(0,_)|(_,0)`, `(1..=12, 1..=12)`, `(1..=12, 1..=31)`,
`(1..=31, 1..=12)` and the catch-all, written as sequential tests. -/
def dotted_case (ddu mmu : Nat) (dd mm yr : String) :
    String × String × String :=
  if ddu = 0 ∨ mmu = 0 then zero_output
  else if (1 ≤ ddu ∧ ddu ≤ 12) ∧ (1 ≤ mmu ∧ mmu ≤ 12) then
    (yr ++ "-" ++ mm ++ "-" ++ dd, yr ++ mm ++ dd, yr ++ mm ++ dd)
  else if (1 ≤ ddu ∧ ddu ≤ 12) ∧ (1 ≤ mmu ∧ mmu ≤ 31) then
    (yr ++ "-" ++ dd ++ "-" ++ mm, yr ++ dd ++ mm, yr ++ dd ++ mm)
  else if (1 ≤ ddu ∧ ddu ≤ 31) ∧ (1 ≤ mmu ∧ mmu ≤ 12) then
    (yr ++ "-" ++ mm ++ "-" ++ dd, yr ++ mm ++ dd, yr ++ mm ++ dd)
  else zero_output

/-- `parse_year` from `src/parse_year.rs`.  The Rust function matches on the
byte slice of the input; every recognised shape consists of ASCII digits,
dots and dashes only, so matching on the character list is equivalent. -/
def parse_year : Option String → String × String × String
  | none => zero_output
  | some y =>
    match y.toList with
    | [a, b, c, d] =>
      if is_digit a && is_digit b && is_digit c && is_digit d then
        (y ++ "-01-01", y ++ "0101", y ++ "0101")
      else zero_output
    | [a, b, c, d, sep, e, f, g, h] =>
      if sep == '-' && is_digit a && is_digit b && is_digit c && is_digit d &&
          is_digit e && is_digit f && is_digit g && is_digit h then
        (String.mk [a, b, c, d] ++ "-01-01",
         String.mk [a, b, c, d] ++ "0101",
         String.mk [e, f, g, h] ++ "0101")
      else zero_output
    | [a, b, s1, c, d, s2, e, f, g, h] =>
      if s1 == '.' && s2 == '.' && is_digit a && is_digit b && is_digit c &&
          is_digit d && is_digit e && is_digit f && is_digit g && is_digit h then
        dotted_case (two_digit_val a b) (two_digit_val c d)
          (String.mk [a, b]) (String.mk [c, d]) (String.mk [e, f, g, h])
      else zero_output
    | _ => zero_output

/-- The first recognised shape: exactly four digit characters. -/
def shape_yyyy (y : String) : Bool :=
  match y.toList with
  | [a, b, c, d] => is_digit a && is_digit b && is_digit c && is_digit d
  | _ => false

/-- The second recognised shape: four digits, a dash, four digits. -/
def shape_year_range (y : String) : Bool :=
  match y.toList with
  | [a, b, c, d, sep, e, f, g, h] =>
    sep == '-' && is_digit a && is_digit b && is_digit c && is_digit d &&
      is_digit e && is_digit f && is_digit g && is_digit h
  | _ => false

/-- The third recognised shape: `NN.NN.NNNN` with a nonzero day and month
(the `(0,_)|(_,0)` arm of the source rejects a zero leading number). -/
def shape_dotted (y : String) : Bool :=
  match y.toList with
  | [a, b, s1, c, d, s2, e, f, g, h] =>
    (s1 == '.' && s2 == '.' && is_digit a && is_digit b && is_digit c &&
      is_digit d && is_digit e && is_digit f && is_digit g && is_digit h) &&
    decide (two_digit_val a b ≠ 0) && decide (two_digit_val c d ≠ 0)
  | _ => false

theorem parse_year_eq_dotted (y : String) (a b c d e f g h : Char)
    (hs : y.toList = [a, b, '.', c, d, '.', e, f, g, h])
    (ha : is_digit a = true) (hb : is_digit b = true)
    (hc : is_digit c = true) (hd : is_digit d = true)
    (he : is_digit e = true) (hf : is_digit f = true)
    (hg : is_digit g = true) (hh : is_digit h = true) :
    parse_year (some y) =
      dotted_case (two_digit_val a b) (two_digit_val c d)
        (String.mk [a, b]) (String.mk [c, d]) (String.mk [e, f, g, h]) := by
  simp only [parse_year, hs]
  simp [ha, hb, hc, hd, he, hf, hg, hh]

theorem dotted_case_from_eq_to (ddu mmu : Nat) (dd mm yr : String) :
    (dotted_case ddu mmu dd mm yr).2.1 = (dotted_case ddu mmu dd mm yr).2.2 := by
  unfold dotted_case
  split_ifs <;> rfl

theorem dotted_case_zero (ddu mmu : Nat) (dd mm yr : String)
    (h : ddu = 0 ∨ mmu = 0) :
    dotted_case ddu mmu dd mm yr = zero_output := by
  unfold dotted_case
  split_ifs <;> first | rfl | omega

theorem dotted_case_both_small (ddu mmu : Nat) (dd mm yr : String)
    (h1 : 1 ≤ ddu) (h2 : ddu ≤ 12) (h3 : 1 ≤ mmu) (h4 : mmu ≤ 12) :
    dotted_case ddu mmu dd mm yr =
      (yr ++ "-" ++ mm ++ "-" ++ dd, yr ++ mm ++ dd, yr ++ mm ++ dd) := by
  unfold dotted_case
  split_ifs <;> first | rfl | omega

theorem dotted_case_first_small (ddu mmu : Nat) (dd mm yr : String)
    (h1 : 1 ≤ ddu) (h2 : ddu ≤ 12) (h3 : 13 ≤ mmu) (h4 : mmu ≤ 31) :
    dotted_case ddu mmu dd mm yr =
      (yr ++ "-" ++ dd ++ "-" ++ mm, yr ++ dd ++ mm, yr ++ dd ++ mm) := by
  unfold dotted_case
  split_ifs <;> first | rfl | omega

theorem dotted_case_second_small (ddu mmu : Nat) (dd mm yr : String)
    (h1 : 13 ≤ ddu) (h2 : ddu ≤ 31) (h3 : 1 ≤ mmu) (h4 : mmu ≤ 12) :
    dotted_case ddu mmu dd mm yr =
      (yr ++ "-" ++ mm ++ "-" ++ dd, yr ++ mm ++ dd, yr ++ mm ++ dd) := by
  unfold dotted_case
  split_ifs <;> first | rfl | omega

theorem dotted_case_out_of_range (ddu mmu : Nat) (dd mm yr : String)
    (h1 : ¬(1 ≤ ddu ∧ ddu ≤ 12 ∧ 1 ≤ mmu ∧ mmu ≤ 31))
    (h2 : ¬(1 ≤ ddu ∧ ddu ≤ 31 ∧ 1 ≤ mmu ∧ mmu ≤ 12)) :
    dotted_case ddu mmu dd mm yr = zero_output := by
  unfold dotted_case
  split_ifs <;> first | rfl | omega

/-- Claim C5: on a 10-character input of shape two digits, `'.'`, two digits,
`'.'`, four digits, with leading numbers `A` (first) and `B` (second),
`parse_year` returns: the sentinel if `A` or `B` is `0`; `YYYY-B-A` (with
matching compact fields) if both are in `[1,12]`; `YYYY-A-B` if `A ∈ [1,12]`
and `B ∈ [13,31]`; `YYYY-B-A` if `A ∈ [13,31]` and `B ∈ [1,12]`; and the
sentinel otherwise.  In every case the compact-from field equals the
compact-to field, and the iso and compact fields are built from the same
year, month and day digits. -/
theorem parse_year_dotted_disambiguation (y : String) (a b c d e f g h : Char)
    (hs : y.toList = [a, b, '.', c, d, '.', e, f, g, h])
    (hdig : (is_digit a && is_digit b && is_digit c && is_digit d &&
      is_digit e && is_digit f && is_digit g && is_digit h) = true) :
    ((two_digit_val a b = 0 ∨ two_digit_val c d = 0) →
      parse_year (some y) = zero_output) ∧
    (1 ≤ two_digit_val a b → two_digit_val a b ≤ 12 →
      1 ≤ two_digit_val c d → two_digit_val c d ≤ 12 →
      parse_year (some y) =
        (String.mk [e, f, g, h] ++ "-" ++ String.mk [c, d] ++ "-" ++ String.mk [a, b],
         String.mk [e, f, g, h] ++ String.mk [c, d] ++ String.mk [a, b],
         String.mk [e, f, g, h] ++ String.mk [c, d] ++ String.mk [a, b])) ∧
    (1 ≤ two_digit_val a b → two_digit_val a b ≤ 12 →
      13 ≤ two_digit_val c d → two_digit_val c d ≤ 31 →
      parse_year (some y) =
        (String.mk [e, f, g, h] ++ "-" ++ String.mk [a, b] ++ "-" ++ String.mk [c, d],
         String.mk [e, f, g, h] ++ String.mk [a, b] ++ String.mk [c, d],
         String.mk [e, f, g, h] ++ String.mk [a, b] ++ String.mk [c, d])) ∧
    (13 ≤ two_digit_val a b → two_digit_val a b ≤ 31 →
      1 ≤ two_digit_val c d → two_digit_val c d ≤ 12 →
      parse_year (some y) =
        (String.mk [e, f, g, h] ++ "-" ++ String.mk [c, d] ++ "-" ++ String.mk [a, b],
         String.mk [e, f, g, h] ++ String.mk [c, d] ++ String.mk [a, b],
         String.mk [e, f, g, h] ++ String.mk [c, d] ++ String.mk [a, b])) ∧
    (¬(1 ≤ two_digit_val a b ∧ two_digit_val a b ≤ 12 ∧
        1 ≤ two_digit_val c d ∧ two_digit_val c d ≤ 31) →
      ¬(1 ≤ two_digit_val a b ∧ two_digit_val a b ≤ 31 ∧
        1 ≤ two_digit_val c d ∧ two_digit_val c d ≤ 12) →
      parse_year (some y) = zero_output) ∧
    (parse_year (some y)).2.1 = (parse_year (some y)).2.2 := by
  simp only [Bool.and_eq_true] at hdig
  obtain ⟨⟨⟨⟨⟨⟨⟨ha, hb⟩, hc⟩, hd⟩, he⟩, hf⟩, hg⟩, hh⟩ := hdig
  have key := parse_year_eq_dotted y a b c d e f g h hs ha hb hc hd he hf hg hh
  refine ⟨?_, ?_, ?_, ?_, ?_, ?_⟩
  · intro h0
    rw [key]
    exact dotted_case_zero _ _ _ _ _ h0
  · intro h1 h2 h3 h4
    rw [key]
    exact dotted_case_both_small _ _ _ _ _ h1 h2 h3 h4
  · intro h1 h2 h3 h4
    rw [key]
    exact dotted_case_first_small _ _ _ _ _ h1 h2 h3 h4
  · intro h1 h2 h3 h4
    rw [key]
    exact dotted_case_second_small _ _ _ _ _ h1 h2 h3 h4
  · intro h1 h2
    rw [key]
    exact dotted_case_out_of_range _ _ _ _ _ h1 h2
  · rw [key]
    exact dotted_case_from_eq_to _ _ _ _ _

/-- Witness for C5: `"15.02.2025"` has `A = 15`, `B = 2`, so the day-first
branch fires and all three fields agree. -/
theorem parse_year_dotted_disambiguation_witness :
    parse_year (some "15.02.2025") = ("2025-02-15", "20250215", "20250215") := by
  have h := parse_year_dotted_disambiguation "15.02.2025"
    '1' '5' '0' '2' '2' '0' '2' '5' rfl (by decide)
  have h4 := h.2.2.2.1 (by decide) (by decide) (by decide) (by decide)
  rw [h4]
  rfl

/-- Claim C6: a 4-digit input `Y` yields `(Y-01-01, Y0101, Y0101)`, and a
`YYYY-YYYY` input with first year `F` and second year `T` yields
`(F-01-01, F0101, T0101)` — the iso date always uses the first year. -/
theorem parse_year_plain_and_range :
    (∀ (y : String) (a b c d : Char), y.toList = [a, b, c, d] →
      (is_digit a && is_digit b && is_digit c && is_digit d) = true →
      parse_year (some y) = (y ++ "-01-01", y ++ "0101", y ++ "0101")) ∧
    (∀ (y : String) (a b c d e f g h : Char),
      y.toList = [a, b, c, d, '-', e, f, g, h] →
      (is_digit a && is_digit b && is_digit c && is_digit d &&
        is_digit e && is_digit f && is_digit g && is_digit h) = true →
      parse_year (some y) =
        (String.mk [a, b, c, d] ++ "-01-01",
         String.mk [a, b, c, d] ++ "0101",
         String.mk [e, f, g, h] ++ "0101")) := by
  constructor
  · intro y a b c d hs hdig
    simp only [Bool.and_eq_true] at hdig
    obtain ⟨⟨⟨ha, hb⟩, hc⟩, hd⟩ := hdig
    simp only [parse_year, hs]
    simp [ha, hb, hc, hd]
  · intro y a b c d e f g h hs hdig
    simp only [Bool.and_eq_true] at hdig
    obtain ⟨⟨⟨⟨⟨⟨⟨ha, hb⟩, hc⟩, hd⟩, he⟩, hf⟩, hg⟩, hh⟩ := hdig
    simp only [parse_year, hs]
    simp [ha, hb, hc, hd, he, hf, hg, hh]

/-- Witness for C6: both shapes at the test inputs of `parse_year.rs`. -/
theorem parse_year_plain_and_range_witness :
    parse_year (some "1998") = ("1998-01-01", "19980101", "19980101") ∧
    parse_year (some "1998-2010") = ("1998-01-01", "19980101", "20100101") := by
  constructor
  · exact parse_year_plain_and_range.1 "1998" '1' '9' '9' '8' rfl (by decide)
  · have h := parse_year_plain_and_range.2 "1998-2010"
      '1' '9' '9' '8' '2' '0' '1' '0' rfl (by decide)
    rw [h]
    rfl

/-- Claim C7: the year normaliser is total; a missing input and every input
matching none of the three recognised shapes (the "zero leading number"
dotted inputs included) map to the sentinel triple, in particular the
spec's edge cases `"999"`, `"10000"`, a day or month of `32`, and a
year range whose halves are not both exactly 4 digits. -/
theorem parse_year_total_sentinel :
    parse_year none = zero_output ∧
    (∀ y : String, shape_yyyy y = false → shape_year_range y = false →
      shape_dotted y = false → parse_year (some y) = zero_output) ∧
    parse_year (some "999") = zero_output ∧
    parse_year (some "10000") = zero_output ∧
    parse_year (some "05.32.2000") = zero_output ∧
    parse_year (some "32.05.2000") = zero_output ∧
    parse_year (some "2000-10000") = zero_output ∧
    parse_year (some "999-2000") = zero_output := by
  refine ⟨rfl, ?_, by decide, by decide, by decide, by decide, by decide, by decide⟩
  intro y h1 h2 h3
  simp only [parse_year]
  split
  · -- four characters
    rename_i a b c d heq
    unfold shape_yyyy at h1
    rw [heq] at h1
    simp only at h1
    simp [h1]
  · -- nine characters
    rename_i a b c d sep e f g h heq
    unfold shape_year_range at h2
    rw [heq] at h2
    simp only at h2
    simp [h2]
  · -- ten characters
    rename_i a b s1 c d s2 e f g h heq
    unfold shape_dotted at h3
    rw [heq] at h3
    simp only at h3
    cases hguard : (s1 == '.' && s2 == '.' && is_digit a && is_digit b && is_digit c &&
        is_digit d && is_digit e && is_digit f && is_digit g && is_digit h) with
    | false => simp [hguard]
    | true =>
      rw [hguard] at h3
      simp only [Bool.true_and, Bool.and_eq_false_iff, decide_eq_false_iff_not,
        Decidable.not_not] at h3
      simp only [hguard, if_true]
      apply dotted_case_zero
      rcases h3 with h3 | h3
      · exact Or.inl h3
      · exact Or.inr h3
  · -- any other length
    rfl

/-- Witness for C7: `"unknown"` matches none of the recognised shapes and
maps to the sentinel. -/
theorem parse_year_total_sentinel_witness :
    parse_year (some "unknown") = zero_output :=
  parse_year_total_sentinel.2.1 "unknown" (by decide) (by decide) (by decide)

/-! ## The analysis forest (data model of `fst_analysis_parser` as used by
`src/main.rs` and `src/process_sentence.rs`) -/

/-- One candidate analysis of a token.  In the source each candidate cell
holds an `Option`al analysis carrying lemma, part of speech, tags, an
optional function label and an optional `(self, parent)` dependency pair. -/
structure Analysis where
  lemma_ : String
  pos : String
  tags : List String
  func : Option String
  deprel : Option (Nat × Nat)
deriving DecidableEq

/-- A token: surface word-form plus candidate analyses (`token.analyses.0`,
each cell's `.analysis` field being optional). -/
structure Token where
  word_form : String
  analyses : List (Option Analysis)
deriving DecidableEq

/-- A word: ordered tokens (compound decomposition). -/
structure Word where
  tokens : List Token
deriving DecidableEq

/-- A sentence: ordered words. -/
structure Sentence where
  words : List Word
deriving DecidableEq

/-! ## The flattener `process_sentence` of `src/main.rs`

`src/korp_mono/file.rs` calls `crate::process_sentence`, which resolves to
the function defined in `src/main.rs` (the file `src/process_sentence.rs`
is not declared as a module anywhere). -/

/-- The function-label transform:
`func.replace(">", "→").replace("<", "←")`.  Both replacements substitute a
single character, so they amount to mapping over the characters. -/
def func_replace (s : String) : String :=
  String.mk (s.toList.map fun ch =>
    if ch == '>' then '→' else if ch == '<' then '←' else ch)

/-- The mutable locals of the per-word loop of `process_sentence` in
`src/main.rs`. -/
structure WordState where
  lemma_ : String
  pos : String
  self_id : Nat
  parent_id : Nat
  function_label : String
  msd : String
deriving DecidableEq

/-- Initial values of the per-word locals (`lemma = ""`, `pos = "___"`,
ids `0`, `function_label = "X"`, `msd = "___"`). -/
def init_word_state : WordState :=
  { lemma_ := "", pos := "___", self_id := 0, parent_id := 0,
    function_label := "X", msd := "___" }

/-- One iteration of the candidate loop in `src/main.rs`: a `None` cell is
skipped; a `Some` analysis overwrites lemma, pos and msd unconditionally and
function label / dependency ids only when present. -/
def apply_candidate (st : WordState) (cand : Option Analysis) : WordState :=
  match cand with
  | none => st
  | some a =>
    { lemma_ := a.lemma_
      pos := a.pos
      msd := String.intercalate "." a.tags
      function_label :=
        match a.func with
        | some fu => func_replace fu
        | none => st.function_label
      self_id :=
        match a.deprel with
        | some p => p.1
        | none => st.self_id
      parent_id :=
        match a.deprel with
        | some p => p.2
        | none => st.parent_id }

/-- The state after the nested `for token { for analysis { ... } }` loops. -/
def word_state (w : Word) : WordState :=
  w.tokens.foldl (fun st tok => tok.analyses.foldl apply_candidate st)
    init_word_state

/-- The concatenation of the word-forms of all tokens of a word. -/
def word_form_of (w : Word) : String :=
  String.join (w.tokens.map Token.word_form)

/-- The `write!(s, "{}\t...\t{}\n", ...)` line emitted for one word. -/
def word_line (w : Word) : String :=
  word_form_of w ++ "\t" ++ (word_state w).lemma_ ++ "\t" ++
    (word_state w).pos ++ "\t" ++ (word_state w).msd ++ "\t" ++
    toString (word_state w).self_id ++ "\t" ++
    (word_state w).function_label ++ "\t" ++
    toString (word_state w).parent_id ++ "\n"

/-- `process_sentence` from `src/main.rs`: for every word it appends the
tab-separated line and then (`s.push_str(&word_form)`) the concatenated
word-form once more. -/
def process_sentence (sentence : Sentence) : String :=
  sentence.words.foldl (fun s w => s ++ word_line w ++ word_form_of w) ""

/-! ## Sentence elements of the output document (`src/korp_mono/file.rs`) -/

/-- A `<sentence id="...">` element of the output document. -/
structure OutSentence where
  id : String
  text : String
deriving DecidableEq

/-- The sentence-list construction inside
`From<ParsedAnalysedDocument> for KorpMonoXmlFile`:
`vec.iter().map(process_sentence).enumerate()
   .map(|(i, string)| Sentence::new(format!("{i}"), ...))`. -/
def korp_sentences : Option (List Sentence) → List OutSentence
  | none => []
  | some vec =>
    ((vec.map process_sentence).enum).map fun p => { id := toString p.1, text := p.2 }

/-- Modelled from the spec: a semantic-category tag is one in the reserved
semantic namespace (`Sem/` prefix in the corpus tag set); the tag type
itself lives in the external `fst_analysis_parser` crate. -/
def is_sem_tag (t : String) : Bool :=
  List.isPrefixOf "Sem/".toList t.toList

/-- Splitting a character list at every occurrence of a separator;
used to state how the emitted body text decomposes into lines and fields. -/
def fields_by (sep : Char) : List Char → List (List Char)
  | [] => [[]]
  | c :: rest =>
    match fields_by sep rest with
    | [] => [[c]]
    | f :: fs => if c == sep then [] :: f :: fs else (c :: f) :: fs

/-- Concrete input for C1: a sentence with no words. -/
def c1_sentence : Sentence := ⟨[]⟩

/-- Claim C1: the spec says sentence ids are 1-based ("the i-th sentence
(counting from 1) has id i", and the module documentation of
`src/korp_mono/file.rs` shows `<sentence id="1">` first), but the code uses
`enumerate()`, whose index starts at 0: a two-sentence document gets ids
`"0"` and `"1"`, not `"1"` and `"2"`. -/
theorem korp_sentences_ids_start_at_zero :
    (korp_sentences (some [c1_sentence, c1_sentence])).map OutSentence.id
      = ["0", "1"] := by decide

/-- Concrete input for C2: one word, one token, one analysis carrying a
semantic-category tag (lemma `viessu`, pos `N`, tags
`Sem/Dummytag Sg Nom`, no function label, no dependency pair). -/
def c2_sentence : Sentence :=
  ⟨[⟨[⟨"viessu", [some ⟨"viessu", "N", ["Sem/Dummytag", "Sg", "Nom"], none, none⟩]⟩]⟩]⟩

/-- Claim C2: the flattener actually linked into the output path
(`process_sentence` in `src/main.rs`) joins `analysis.tags` with `.`
without any filtering, so a semantic-category tag appears verbatim in the
emitted morphological-tag string (the filtering exists only in the unused
module `src/process_sentence.rs`). -/
theorem process_sentence_keeps_sem_tag :
    process_sentence c2_sentence =
      "viessu\tviessu\tN\tSem/Dummytag.Sg.Nom\t0\tX\t0\nviessu" ∧
    is_sem_tag "Sem/Dummytag" = true := by
  exact ⟨rfl, by decide⟩

/-- Concrete input for C3: one word, one token, no candidate analyses at
all (hence no resolvable lemma). -/
def c3_sentence : Sentence :=
  ⟨[⟨[⟨"foo", []⟩]⟩]⟩

/-- Claim C3: the linked flattener emits a record line for every word, even
when no candidate yields a lemma — the lemma field is simply left empty —
so a lemma-less token still contributes a line, contrary to the claim. -/
theorem process_sentence_emits_line_without_lemma :
    process_sentence c3_sentence = "foo\t\t___\t___\t0\tX\t0\nfoo" ∧
    process_sentence c3_sentence ≠ "" := by
  exact ⟨rfl, by decide⟩

/-- Concrete input for C4: one word with a complete analysis (lemma `da`,
pos `CC`, tag `CC`, function label `CNP`, dependency pair `(2, 1)`). -/
def c4_sentence : Sentence :=
  ⟨[⟨[⟨"da", [some ⟨"da", "CC", ["CC"], some "CNP", some (2, 1)⟩]⟩]⟩]⟩

/-- Claim C4: after each 7-field record line the linked flattener appends
the concatenated word-form once more (`s.push_str(&word_form)`), so the
sentence body is not exactly the newline-joined record lines: splitting the
emitted text on newlines leaves a trailing 1-field chunk after the line. -/
theorem process_sentence_appends_word_form :
    process_sentence c4_sentence = "da\tda\tCC\tCC\t2\tCNP\t1\nda" ∧
    (fields_by '\n' (process_sentence c4_sentence).toList).map
      (fun line => (fields_by '\t' line).length) = [7, 1] := by
  exact ⟨rfl, by decide⟩

/-! ## Author handling of `From<ParsedAnalysedDocument> for KorpMonoXmlFile`
(`src/korp_mono/file.rs`) -/

/-- `Person` from `src/analysed/file.rs`: all attributes optional. -/
structure Person where
  firstname : Option String
  lastname : Option String
  sex : Option String
  born : Option String
  nationality : Option String

/-- The `(first_name, last_name, nationality)` computation of the `From`
impl in `src/korp_mono/file.rs`.  `none` on the outside models the
`authors.first().expect(...)` panic, which the code rules out by the decode
invariant stated in its `expect` message (serde never produces
`Some(empty vec)`).  Each inner field stays `Option String` because the
output `Text` struct stores `Option<String>` attributes. -/
def author_fields :
    Option (List Person) → Option (Option String × Option String × Option String)
  | none => some (some "", some "", some "")
  | some authors =>
    match authors.head? with
    | none => none
    | some person =>
      some
        ((match person.firstname with
          | some s => some s
          | none => some ""),
         (match person.lastname with
          | some s => some s
          | none => some ""),
         (match person.nationality with
          | some s => some s
          | none => some ""))

/-- Claim C9: for every decoded header (where by the decode invariant the
author list is never a present-but-empty vector), the transformer derives
the three fields from the first author when the list is present and sets
all three to the empty string when it is absent; individually absent fields
of the first author also become empty strings, and the result is never a
missing value (every component is `some`). -/
theorem author_fields_first_author (authors : Option (List Person))
    (hne : authors ≠ some []) :
    (∃ f l n : String, author_fields authors = some (some f, some l, some n)) ∧
    (authors = none → author_fields authors = some (some "", some "", some "")) ∧
    (∀ p rest, authors = some (p :: rest) →
      author_fields authors =
        some (some (p.firstname.getD ""), some (p.lastname.getD ""),
          some (p.nationality.getD ""))) := by
  match authors with
  | none => exact ⟨⟨"", "", "", rfl⟩, fun _ => rfl, fun p rest h => by cases h⟩
  | some [] => exact absurd rfl hne
  | some (p :: rest) =>
    have hfields : author_fields (some (p :: rest)) =
        some (some (p.firstname.getD ""), some (p.lastname.getD ""),
          some (p.nationality.getD "")) := by
      cases hf : p.firstname <;> cases hl : p.lastname <;>
        cases hn : p.nationality <;>
        simp [author_fields, hf, hl, hn]
    refine ⟨⟨p.firstname.getD "", p.lastname.getD "", p.nationality.getD "", hfields⟩,
      ?_, ?_⟩
    · intro h
      exact Option.noConfusion h
    · intro q qrest h
      obtain ⟨rfl, rfl⟩ : p = q ∧ rest = qrest := by
        have h2 := Option.some.inj h
        exact ⟨(List.cons.inj h2).1, (List.cons.inj h2).2⟩
      exact hfields

/-- Witness for C9: a present author whose fields are all absent yields the
empty-string triple, each component a present (`some`) value. -/
theorem author_fields_first_author_witness :
    author_fields (some [⟨none, none, none, none, none⟩]) =
      some (some "", some "", some "") := by
  have h := author_fields_first_author (some [⟨none, none, none, none, none⟩])
    (by simp)
  exact h.2.2 ⟨none, none, none, none, none⟩ [] rfl

/-! ## Output-path derivation (`src/korp_mono/path.rs`)

Paths are modelled by their lists of components.  The `From` impls for
`KorpMonoPath` (by value and by reference are textually identical) reverse
the component list, push each component — substituting `korp_mono` for every
component equal to `analysed` — and reverse back. -/

/-- The per-component substitution of the loop body. -/
def replace_analysed (c : String) : String :=
  if c == "analysed" then "korp_mono" else c

/-- `From<&AnalysedFilePath> for KorpMonoPath` on the component list:
`components().rev()`, push with substitution, `reverse()`. -/
def korp_mono_path (components : List String) : List String :=
  (components.reverse.foldl (fun out c => out ++ [replace_analysed c]) []).reverse

theorem foldl_push_eq_map (l : List String) (acc : List String) :
    l.foldl (fun out c => out ++ [replace_analysed c]) acc
      = acc ++ l.map replace_analysed := by
  induction l generalizing acc with
  | nil => simp
  | cons c cs ih => simp [ih, List.append_assoc]

/-- Claim C8 counterexample: an analysed path containing the `analysed`
segment twice has BOTH occurrences renamed, so "exactly one segment is
renamed" fails (two positions differ between input and output). -/
theorem korp_mono_path_renames_two_segments :
    korp_mono_path ["corpus-sme", "analysed", "analysed", "file.xml"] =
      ["corpus-sme", "korp_mono", "korp_mono", "file.xml"] ∧
    ((["corpus-sme", "analysed", "analysed", "file.xml"].zip
        (korp_mono_path ["corpus-sme", "analysed", "analysed", "file.xml"])).countP
      fun p => decide (p.1 ≠ p.2)) = 2 := by
  exact ⟨by decide, by decide⟩

theorem countP_zip_map_replace (cs : List String) :
    ((cs.zip (cs.map replace_analysed)).countP fun p => decide (p.1 ≠ p.2))
      = cs.count "analysed" := by
  induction cs with
  | nil => rfl
  | cons c rest ih =>
    simp only [List.map_cons, List.zip_cons_cons, List.countP_cons, ih,
      List.count_cons]
    by_cases hc : c = "analysed"
    · subst hc
      simp [replace_analysed]
    · have : replace_analysed c = c := by
        simp [replace_analysed, hc]
      simp [this, hc]

/-- Claim C8 (amended): the derived output component list is the input list
with EVERY component equal to the analysed-data segment replaced by the
output-data segment and all other components preserved (so the number of
renamed segments equals the number of `analysed` components — exactly one
whenever the path contains the segment exactly once), and the derivation is
a pure function, so deriving twice from the same input yields equal
results. -/
theorem korp_mono_path_spec (cs : List String) :
    korp_mono_path cs = cs.map replace_analysed ∧
    ((cs.zip (korp_mono_path cs)).countP fun p => decide (p.1 ≠ p.2))
      = cs.count "analysed" ∧
    korp_mono_path cs = korp_mono_path cs := by
  have hmap : korp_mono_path cs = cs.map replace_analysed := by
    unfold korp_mono_path
    rw [foldl_push_eq_map]
    simp [List.map_reverse]
  exact ⟨hmap, by rw [hmap]; exact countP_zip_map_replace cs, rfl⟩

/-! ## Input-path validity check (`src/analysed/path.rs`)

`Option Bool` results: `none` models a Rust panic, `some b` a normal
boolean return. -/

/-- `is_corpus_dir` from `src/analysed/path.rs`.  The Rust function copies
the component's characters into a fixed `['\0'; 10]` buffer with
`arr[i] = ch`; for a component longer than 10 characters the write at index
10 panics (modelled by `none`).  Otherwise it checks that the first 7
characters are `corpus-` and the remaining 3 buffer cells are in the
half-open range `'a'..'z'` (exclusive of `'z'`, as in the Rust pattern). -/
def is_corpus_dir (component : String) : Option Bool :=
  let cs := component.toList
  if 10 < cs.length then none
  else
    let arr := cs ++ List.replicate (10 - cs.length) (Char.ofNat 0)
    if arr.take 7 ≠ ['c', 'o', 'r', 'p', 'u', 's', '-'] then some false
    else if (arr.drop 7).all (fun ch => 'a' ≤ ch && ch < 'z') then some true
    else some false

/-- The component loop of `is_analysed_corpus_dir`: `prev` records whether
some earlier component was a corpus dir (it is never reset). -/
def is_analysed_go : Bool → List String → Option Bool
  | _, [] => some false
  | prev, c :: rest =>
    match is_corpus_dir c with
    | none => none
    | some true => is_analysed_go true rest
    | some false =>
      if c == "analysed" && prev then some true
      else is_analysed_go prev rest

/-- `is_analysed_corpus_dir` from `src/analysed/path.rs`, on the component
list of a UTF-8 path. -/
def is_analysed_corpus_dir (components : List String) : Option Bool :=
  is_analysed_go false components

/-- Claim C10: the validity check is NOT panic-free — on a path containing
a component longer than 10 characters (here `abcdefghijk`, 11 characters)
`is_corpus_dir` indexes past its fixed 10-element buffer and panics
(`none`), whereas on short-component paths it returns a boolean
(`some true` for a `corpus-xxx/analysed` path). -/
theorem is_analysed_corpus_dir_panics_on_long_component :
    is_analysed_corpus_dir ["home", "abcdefghijk", "corpus-sme", "analysed"]
      = none ∧
    is_analysed_corpus_dir ["home", "corpus-sme", "analysed"] = some true := by
  exact ⟨by decide, by decide⟩

end KorpMono
